import Mathlib

/-!
Verification of the finalsign-api document-signing core against its
natural-language specification.

The Go source is shallowly embedded: byte strings are `List Nat`, database
rows are structures mirroring the SQL schema of
`migrations/000004_templates_and_fields.up.sql`, fallible Go functions
become `Except String` computations, and the AES-256-GCM primitives from
Go's standard library (code outside this repository) are abstracted as a
structure whose propositional fields state exactly the authenticated
encryption contract that `crypto/cipher`'s GCM documents.
-/

deriving instance DecidableEq for Except

namespace FinalSign

/-! ## SHA-256 (FIPS 180-4), as used via Go `crypto/sha256` in storage/s3.go -/

/-- Truncate to a 32-bit word. -/
def w32 (n : Nat) : Nat := n % 4294967296

/-- Right rotation of a 32-bit word. -/
def rotr32 (n x : Nat) : Nat := w32 ((x >>> n) ||| (x <<< (32 - n)))

def bsig0 (x : Nat) : Nat := (rotr32 2 x) ^^^ (rotr32 13 x) ^^^ (rotr32 22 x)

def bsig1 (x : Nat) : Nat := (rotr32 6 x) ^^^ (rotr32 11 x) ^^^ (rotr32 25 x)

def ssig0 (x : Nat) : Nat := (rotr32 7 x) ^^^ (rotr32 18 x) ^^^ (x >>> 3)

def ssig1 (x : Nat) : Nat := (rotr32 17 x) ^^^ (rotr32 19 x) ^^^ (x >>> 10)

/-- SHA-256 round constants. -/
def k256 : List Nat :=
  [1116352408, 1899447441, 3049323471, 3921009573, 961987163, 1508970993,
   2453635748, 2870763221, 3624381080, 310598401, 607225278, 1426881987,
   1925078388, 2162078206, 2614888103, 3248222580, 3835390401, 4022224774,
   264347078, 604807628, 770255983, 1249150122, 1555081692, 1996064986,
   2554220882, 2821834349, 2952996808, 3210313671, 3336571891, 3584528711,
   113926993, 338241895, 666307205, 773529912, 1294757372, 1396182291,
   1695183700, 1986661051, 2177026350, 2456956037, 2730485921, 2820302411,
   3259730800, 3345764771, 3516065817, 3600352804, 4094571909, 275423344,
   430227734, 506948616, 659060556, 883997877, 958139571, 1322822218,
   1537002063, 1747873779, 1955562222, 2024104815, 2227730452, 2361852424,
   2428436474, 2756734187, 3204031479, 3329325298]

/-- Big-endian byte encoding of `n` into exactly `k` bytes. -/
def beBytes (k : Nat) (n : Nat) : List Nat :=
  match k with
  | 0 => []
  | k + 1 => beBytes k (n / 256) ++ [n % 256]

/-- SHA-256 padding: append 0x80, zero fill to 56 mod 64, then the 64-bit
big-endian bit length. -/
def padMessage (msg : List Nat) : List Nat :=
  let z := (119 - msg.length % 64) % 64
  msg ++ [128] ++ List.replicate z 0 ++ beBytes 8 (msg.length * 8)

/-- Group bytes into big-endian 32-bit words. -/
def bytesToWords : List Nat → List Nat
  | a :: b :: c :: d :: rest => (((a * 256 + b) * 256 + c) * 256 + d) :: bytesToWords rest
  | _ => []

/-- Split a word list into 16-word blocks; the fuel bounds the number of blocks. -/
def blocks16Aux : Nat → List Nat → List (List Nat)
  | 0, _ => []
  | _, [] => []
  | fuel + 1, w :: rest => (w :: rest.take 15) :: blocks16Aux fuel (rest.drop 15)

def blocks16 (l : List Nat) : List (List Nat) := blocks16Aux l.length l

/-- Extend the 16 message-schedule words to 64, `fuel` steps at a time. -/
def extendW (fuel : Nat) (ws : List Nat) : List Nat :=
  match fuel with
  | 0 => ws
  | f + 1 =>
    let n := ws.length
    let x := w32 (ssig1 (ws.getD (n - 2) 0) + ws.getD (n - 7) 0 +
      ssig0 (ws.getD (n - 15) 0) + ws.getD (n - 16) 0)
    extendW f (ws ++ [x])

def schedule (block : List Nat) : List Nat := extendW 48 block

/-- The eight 32-bit working variables of the compression function. -/
structure Hash8 where
  a : Nat
  b : Nat
  c : Nat
  d : Nat
  e : Nat
  f : Nat
  g : Nat
  h : Nat
deriving DecidableEq, Repr

/-- Initial SHA-256 hash value. -/
def initH : Hash8 :=
  ⟨1779033703, 3144134277, 1013904242, 2773480762, 1359893119, 2600822924, 528734635, 1541459225⟩

/-- One SHA-256 compression round for a (constant, schedule word) pair. -/
def shaRound (st : Hash8) (kw : Nat × Nat) : Hash8 :=
  let ch := (st.e &&& st.f) ^^^ ((st.e ^^^ 4294967295) &&& st.g)
  let maj := (st.a &&& st.b) ^^^ (st.a &&& st.c) ^^^ (st.b &&& st.c)
  let t1 := w32 (st.h + bsig1 st.e + ch + kw.1 + kw.2)
  let t2 := w32 (bsig0 st.a + maj)
  ⟨w32 (t1 + t2), st.a, st.b, st.c, w32 (st.d + t1), st.e, st.f, st.g⟩

/-- Compress one 512-bit block into the running hash value. -/
def compressBlock (hv : Hash8) (block : List Nat) : Hash8 :=
  let st := ((k256.zip (schedule block)).foldl shaRound hv)
  ⟨w32 (hv.a + st.a), w32 (hv.b + st.b), w32 (hv.c + st.c), w32 (hv.d + st.d),
   w32 (hv.e + st.e), w32 (hv.f + st.f), w32 (hv.g + st.g), w32 (hv.h + st.h)⟩

/-- SHA-256 digest (32 bytes) of a byte string. -/
def sha256 (msg : List Nat) : List Nat :=
  let hv := (blocks16 (bytesToWords (padMessage msg))).foldl compressBlock initH
  beBytes 4 hv.a ++ beBytes 4 hv.b ++ beBytes 4 hv.c ++ beBytes 4 hv.d ++
  beBytes 4 hv.e ++ beBytes 4 hv.f ++ beBytes 4 hv.g ++ beBytes 4 hv.h

def hexDigit (n : Nat) : Char := if n < 10 then Char.ofNat (48 + n) else Char.ofNat (87 + n)

def hexByte (b : Nat) : List Char := [hexDigit (b / 16), hexDigit (b % 16)]

/-- Lowercase hex encoding, Go `hex.EncodeToString`. -/
def hexEncode (bs : List Nat) : String := String.mk (bs.map hexByte).flatten

/-- `hex.EncodeToString(sha256.Sum256(data))` as used throughout storage/s3.go. -/
def sha256Hex (msg : List Nat) : String := hexEncode (sha256 msg)

/-- FIPS 180-4 test vector: SHA-256 of the three bytes "abc". -/
theorem sha256_abc_vector :
    sha256 [97, 98, 99] =
      [186, 120, 22, 191, 143, 1, 207, 234, 65, 65, 64, 222,
       93, 174, 34, 35, 176, 3, 97, 163, 150, 23, 122, 156,
       180, 16, 255, 97, 242, 0, 21, 173] := by
  decide

/-! ## Encrypted content store (internal/storage/s3.go)

Go's `crypto/cipher` GCM implementation lives outside this repository, so it
is abstracted as a structure carrying the two properties its documentation
guarantees for an AEAD: `Open` inverts `Seal`, and `Open` only accepts exact
outputs of `Seal` for the same nonce (authentication — any other ciphertext
is rejected). `encryptData`/`decryptData`/`DownloadFile` below are
translated line by line from storage/s3.go on top of it. -/

/-- Abstract authenticated cipher standing for Go's `cipher.AEAD` (GCM over
AES-256 with the process-wide key baked in). `seal nonce p` is
`gcm.Seal(nil, nonce, p, nil)`; `gopen nonce c` is `gcm.Open(nil, nonce, c, nil)`
returning `none` on authentication failure. -/
structure GCMCipher where
  nonceSize : Nat
  Seal : List Nat → List Nat → List Nat
  Open : List Nat → List Nat → Option (List Nat)
  open_seal : ∀ nonce p, Open nonce (Seal nonce p) = some p
  auth : ∀ nonce c p, Open nonce c = some p → c = Seal nonce p

/-- `encryptData` from storage/s3.go: a fresh random `nonce` (the randomness is
a parameter here) is prepended to the sealed data, exactly what
`gcm.Seal(nonce, nonce, data, nil)` produces. -/
def encryptData (g : GCMCipher) (nonce data : List Nat) : List Nat :=
  nonce ++ g.Seal nonce data

/-- `decryptData` from storage/s3.go: reject inputs shorter than the nonce,
split off the nonce, and authenticate-decrypt the rest. -/
def decryptData (g : GCMCipher) (encryptedData : List Nat) : Except String (List Nat) :=
  if encryptedData.length < g.nonceSize then
    .error "encrypted data too short"
  else
    let nonce := encryptedData.take g.nonceSize
    let ciphertext := encryptedData.drop g.nonceSize
    match g.Open nonce ciphertext with
    | some plaintext => .ok plaintext
    | none => .error "failed to decrypt data"

/-- Result of `DownloadFile` (storage/s3.go): decrypted bytes plus the hex
SHA-256 recomputed from them. -/
structure DownloadResult where
  data : List Nat
  fileHash : String
  fileSize : Nat
deriving DecidableEq

/-- `DownloadFile` from storage/s3.go, with the S3 fetch represented by the
`stored` bytes found under the requested key (`none` when the object is
missing). -/
def DownloadFile (g : GCMCipher) (stored : Option (List Nat)) : Except String DownloadResult :=
  match stored with
  | none => .error "failed to download from S3"
  | some buf =>
    match decryptData g buf with
    | .error e => .error ("failed to decrypt file: " ++ e)
    | .ok decryptedData => .ok ⟨decryptedData, sha256Hex decryptedData, decryptedData.length⟩

/-- The store side of `UploadTemplate`/`UploadSignedDocument` (storage/s3.go):
the ciphertext written to the object store and the plaintext hash returned to
the caller. -/
def putObject (g : GCMCipher) (nonce fileData : List Nat) : List Nat × String :=
  (encryptData g nonce fileData, sha256Hex fileData)

/-- A concrete inhabitant of `GCMCipher` (a one-byte-tag toy cipher) used only
to witness the theorems below at executable inputs; it satisfies the same
AEAD contract. -/
def toySeal (_nonce p : List Nat) : List Nat := p ++ [0]

def toyOpen (_nonce c : List Nat) : Option (List Nat) :=
  if c.getLast? = some 0 then some c.dropLast else none

theorem toyOpen_toySeal (nonce p : List Nat) : toyOpen nonce (toySeal nonce p) = some p := by
  simp [toyOpen, toySeal, List.getLast?_concat]

theorem toyOpen_auth (nonce c p : List Nat) (h : toyOpen nonce c = some p) :
    c = toySeal nonce p := by
  unfold toyOpen at h
  split at h
  · rename_i hlast
    cases h
    rcases c.eq_nil_or_concat with rfl | ⟨l, a, rfl⟩
    · simp at hlast
    · simp [List.getLast?_concat] at hlast
      simp [toySeal, hlast]
  · cases h

def toyGCM : GCMCipher :=
  { nonceSize := 12
    Seal := toySeal
    Open := toyOpen
    open_seal := toyOpen_toySeal
    auth := toyOpen_auth }

/-- C1: storing a payload through the content store and reading it back
round-trips — `DownloadFile` on the object written by the upload path returns
exactly the payload together with its hex SHA-256 — and any tampered or
truncated ciphertext (anything that is not an exact output of the cipher for
its own leading nonce) makes `DownloadFile` return an error, never plaintext. -/
theorem c1_content_store_roundtrip_integrity (g : GCMCipher)
    (nonce payload tampered : List Nat)
    (hn : nonce.length = g.nonceSize)
    (ht : ∀ p, List.drop g.nonceSize tampered ≠ g.Seal (List.take g.nonceSize tampered) p) :
    DownloadFile g (some (putObject g nonce payload).1) =
      .ok ⟨payload, sha256Hex payload, payload.length⟩ ∧
    ∃ e, DownloadFile g (some tampered) = .error e := by
  constructor
  · have hlen : ¬ (nonce ++ g.Seal nonce payload).length < g.nonceSize := by
      simp [hn]
    have htake : (nonce ++ g.Seal nonce payload).take g.nonceSize = nonce := by
      rw [← hn, List.take_left]
    have hdrop : (nonce ++ g.Seal nonce payload).drop g.nonceSize = g.Seal nonce payload := by
      rw [← hn, List.drop_left]
    simp only [putObject, encryptData, DownloadFile, decryptData, if_neg hlen, htake, hdrop,
      g.open_seal]
  · by_cases hshort : tampered.length < g.nonceSize
    · exact ⟨"failed to decrypt file: " ++ "encrypted data too short",
        by simp only [DownloadFile, decryptData, if_pos hshort]⟩
    · have hopen : g.Open (tampered.take g.nonceSize) (tampered.drop g.nonceSize) = none := by
        cases hO : g.Open (tampered.take g.nonceSize) (tampered.drop g.nonceSize) with
        | none => rfl
        | some p => exact absurd (g.auth _ _ _ hO) (ht p)
      exact ⟨"failed to decrypt file: " ++ "failed to decrypt data",
        by simp only [DownloadFile, decryptData, if_neg hshort, hopen]⟩

/-- Witness for C1 at the concrete toy cipher: payload `[1,2,3]` with a zero
nonce round-trips, and the empty (truncated) ciphertext is rejected. -/
theorem c1_content_store_roundtrip_integrity_witness :
    DownloadFile toyGCM (some (putObject toyGCM (List.replicate 12 0) [1, 2, 3]).1) =
      .ok ⟨[1, 2, 3], sha256Hex [1, 2, 3], [1, 2, 3].length⟩ ∧
    ∃ e, DownloadFile toyGCM (some []) = .error e :=
  c1_content_store_roundtrip_integrity toyGCM (List.replicate 12 0) [1, 2, 3] []
    (by simp [toyGCM]) (by intro p h; simp [toyGCM, toySeal] at h)

/-- C9: `decryptData` is total on arbitrary byte strings — any input shorter
than the 12-byte GCM nonce yields the "encrypted data too short" error rather
than an out-of-range slice, and every input produces either a plaintext or an
error. -/
theorem c9_decryptData_total (g : GCMCipher) (data : List Nat) (h12 : g.nonceSize = 12) :
    (data.length < 12 → decryptData g data = .error "encrypted data too short") ∧
    ((∃ p, decryptData g data = .ok p) ∨ (∃ e, decryptData g data = .error e)) := by
  constructor
  · intro hlt
    simp only [decryptData, h12, if_pos hlt]
  · cases h : decryptData g data with
    | ok p => exact Or.inl ⟨p, rfl⟩
    | error e => exact Or.inr ⟨e, rfl⟩

/-- Witness for C9 at the toy cipher and the 3-byte input `[1,2,3]`. -/
theorem c9_decryptData_total_witness :
    ([1, 2, 3].length < 12 →
      decryptData toyGCM [1, 2, 3] = .error "encrypted data too short") ∧
    ((∃ p, decryptData toyGCM [1, 2, 3] = .ok p) ∨
      (∃ e, decryptData toyGCM [1, 2, 3] = .error e)) :=
  c9_decryptData_total toyGCM [1, 2, 3] (by rfl)

/-! ## Relational state

Rows mirror `migrations/000004_templates_and_fields.up.sql` (UUIDs and user
ids become `Nat`; timestamps, which no verified property reads, are omitted).
A `DBState` is the persisted store; operations are the Go service methods of
internal/database, returning `Except` like their `error` results, with an
error meaning the transaction rolled back and the state is unchanged. -/

structure TemplateRow where
  id : Nat
  name : String
  description : String
  s3Bucket : String
  s3Key : String
  pdfHash : String
  fileSize : Int
  mimeType : String
  totalPages : Int
  createdBy : Nat
  workspaceId : Nat
  isActive : Bool
  version : Int
deriving DecidableEq, Repr

structure TemplateSignerRow where
  id : Nat
  templateId : Nat
  signerOrder : Int
  signerName : String
  signerColor : String
deriving DecidableEq, Repr

structure TemplateFieldRow where
  id : Nat
  templateId : Nat
  signerId : Nat
  fieldName : String
  fieldType : String
  fieldLabel : String
  placeholderText : String
  positionData : String
  validationRules : String
  required : Bool
  version : Int
deriving DecidableEq, Repr

structure MembershipRow where
  workspaceId : Nat
  userId : Nat
  role : String
  status : String
deriving DecidableEq, Repr

structure AuditLogRow where
  templateId : Nat
  userId : Nat
  action : String
  details : String
deriving DecidableEq, Repr

structure DBState where
  templates : List TemplateRow
  template_signers : List TemplateSignerRow
  template_fields : List TemplateFieldRow
  memberships : List MembershipRow
  audit_log : List AuditLogRow
  nextId : Nat
deriving DecidableEq, Repr

/-- `isValidHexColor` from the template routes; the SQL CHECK
`signer_color ~ '^#[0-9A-Fa-f]{6}$'` on `template_signers` accepts the same
strings. -/
def isValidHexColor (color : String) : Bool :=
  match color.toList with
  | '#' :: rest => rest.length == 6 && rest.all (fun c =>
      (('0' ≤ c && c ≤ '9') || ('A' ≤ c && c ≤ 'F') || ('a' ≤ c && c ≤ 'f')))
  | _ => false

/-- The closed set of field types, CHECK `template_fields_valid_type` and the
`validFieldTypes` map of the route handlers. -/
def validFieldTypes : List String := ["text", "signature", "date", "checkbox", "email", "phone"]

/-- Caller-supplied signer data for an insert (the row id is generated). -/
structure TemplateSignerInput where
  signerOrder : Int
  signerName : String
  signerColor : String
deriving DecidableEq, Repr

/-- Caller-supplied field data for an insert (the row id is generated). -/
structure TemplateFieldInput where
  signerId : Nat
  fieldName : String
  fieldType : String
  fieldLabel : String
  placeholderText : String
  positionData : String
  validationRules : String
  required : Bool
  version : Int
deriving DecidableEq, Repr

/-- Constraints a `template_signers` INSERT must satisfy (migration 000004):
FK to templates, positive order, hex color, non-empty name, and
UNIQUE (template_id, signer_order). -/
def signerInsertOk (st : DBState) (r : TemplateSignerRow) : Bool :=
  st.templates.any (fun t => t.id == r.templateId) &&
  decide (0 < r.signerOrder) &&
  isValidHexColor r.signerColor &&
  !r.signerName.isEmpty &&
  !(st.template_signers.any (fun s => s.templateId == r.templateId && s.signerOrder == r.signerOrder))

/-- Constraints a `template_fields` INSERT must satisfy (migration 000004).
Note the FK `signer_id REFERENCES template_signers(id)` only requires the
signer row to exist somewhere — it does not tie it to the same template. -/
def fieldInsertOk (st : DBState) (r : TemplateFieldRow) : Bool :=
  st.templates.any (fun t => t.id == r.templateId) &&
  st.template_signers.any (fun s => s.id == r.signerId) &&
  validFieldTypes.contains r.fieldType &&
  !r.fieldName.isEmpty &&
  !(st.template_fields.any (fun f => f.templateId == r.templateId && f.fieldName == r.fieldName))

/-- The field INSERT loops of `ReplaceTemplateFields` and
`CreateTemplateWithSignersAndFields`: each row gets a fresh id; a constraint
violation fails the statement and rolls back the transaction. -/
def insertFields (st : DBState) (templateID : Nat) :
    List TemplateFieldInput → Except String DBState
  | [] => .ok st
  | f :: rest =>
    let row : TemplateFieldRow :=
      ⟨st.nextId, templateID, f.signerId, f.fieldName, f.fieldType, f.fieldLabel,
       f.placeholderText, f.positionData, f.validationRules, f.required, f.version⟩
    if fieldInsertOk st row then
      insertFields
        { st with template_fields := st.template_fields ++ [row], nextId := st.nextId + 1 }
        templateID rest
    else
      .error ("failed to create template field " ++ f.fieldName)

/-- The signer INSERT loops of `ReplaceTemplateSigners` and
`CreateTemplateWithSignersAndFields`. -/
def insertSigners (st : DBState) (templateID : Nat) :
    List TemplateSignerInput → Except String DBState
  | [] => .ok st
  | s :: rest =>
    let row : TemplateSignerRow :=
      ⟨st.nextId, templateID, s.signerOrder, s.signerName, s.signerColor⟩
    if signerInsertOk st row then
      insertSigners
        { st with template_signers := st.template_signers ++ [row], nextId := st.nextId + 1 }
        templateID rest
    else
      .error ("failed to create template signer " ++ s.signerName)

/-- `UPDATE templates SET version = version + 1 ... WHERE id = $1`. -/
def bumpTemplateVersion (st : DBState) (templateID : Nat) : DBState :=
  { st with templates := st.templates.map (fun t =>
      if t.id == templateID then { t with version := t.version + 1 } else t) }

/-- `GetTemplateByID` (template + workspace-membership join, active rows
only). -/
def GetTemplateByID (st : DBState) (templateID userID : Nat) : Except String TemplateRow :=
  match st.templates.find? (fun t => t.id == templateID && t.isActive &&
      st.memberships.any (fun m =>
        m.workspaceId == t.workspaceId && m.userId == userID && m.status == "active")) with
  | some t => .ok t
  | none => .error "template not found or access denied"

/-- The standalone role query used by `ReplaceTemplateFields`,
`ReplaceTemplateSigners` and `AddFieldsToTemplate`. -/
def memberRole (st : DBState) (workspaceID userID : Nat) : Except String String :=
  match st.memberships.find? (fun m =>
      m.workspaceId == workspaceID && m.userId == userID && m.status == "active") with
  | some m => .ok m.role
  | none => .error "access denied"

/-- The permission query of `UpdateTemplate`/`DeactivateTemplate`
(`SELECT t.created_by, wm.role ... WHERE t.id = $1 AND wm.user_id = $2 AND
wm.status = 'active' AND t.is_active = true`). -/
def templatePermission (st : DBState) (templateID userID : Nat) : Except String (Nat × String) :=
  match st.templates.find? (fun t => t.id == templateID && t.isActive &&
      st.memberships.any (fun m =>
        m.workspaceId == t.workspaceId && m.userId == userID && m.status == "active")) with
  | none => .error "template not found or access denied"
  | some t =>
    match st.memberships.find? (fun m =>
        m.workspaceId == t.workspaceId && m.userId == userID && m.status == "active") with
    | none => .error "template not found or access denied"
    | some m => .ok (t.createdBy, m.role)

/-- `ReplaceTemplateFields` (part_005): permission gate, delete every field of
the template, insert the new set, bump the version — one transaction. -/
def ReplaceTemplateFields (st : DBState) (templateID : Nat)
    (fields : List TemplateFieldInput) (userID : Nat) : Except String DBState :=
  match GetTemplateByID st templateID userID with
  | .error e => .error e
  | .ok template =>
    match memberRole st template.workspaceId userID with
    | .error e => .error e
    | .ok role =>
      if template.createdBy != userID && role != "owner" && role != "admin" then
        .error "insufficient permissions to modify template"
      else
        match insertFields
          { st with template_fields :=
              st.template_fields.filter (fun f => !(f.templateId == templateID)) }
          templateID fields with
        | .error e => .error e
        | .ok st2 => .ok (bumpTemplateVersion st2 templateID)

/-- `ReplaceTemplateSigners` (part_005): permission gate, delete every field
of the template, delete its signers (the `ON DELETE CASCADE` on
`template_fields.signer_id` also removes any remaining field referencing a
deleted signer), insert the new signers, bump the version. -/
def ReplaceTemplateSigners (st : DBState) (templateID : Nat)
    (signers : List TemplateSignerInput) (userID : Nat) : Except String DBState :=
  match GetTemplateByID st templateID userID with
  | .error e => .error e
  | .ok template =>
    match memberRole st template.workspaceId userID with
    | .error e => .error e
    | .ok role =>
      if template.createdBy != userID && role != "owner" && role != "admin" then
        .error "insufficient permissions to modify template"
      else
        match insertSigners
          { st with
            template_signers :=
              st.template_signers.filter (fun s => !(s.templateId == templateID)),
            template_fields :=
              (st.template_fields.filter (fun f => !(f.templateId == templateID))).filter
                (fun f => !((st.template_signers.filter (fun s => s.templateId == templateID)).any
                  (fun s => s.id == f.signerId))) }
          templateID signers with
        | .error e => .error e
        | .ok st3 => .ok (bumpTemplateVersion st3 templateID)

/-- `UpdateTemplate` (part_005): permission gate then a metadata UPDATE. -/
def UpdateTemplate (st : DBState) (templateID : Nat) (name description : String)
    (userID : Nat) : Except String DBState :=
  match templatePermission st templateID userID with
  | .error e => .error e
  | .ok (createdBy, role) =>
    if createdBy != userID && role != "owner" && role != "admin" then
      .error "insufficient permissions to update template"
    else if st.templates.any (fun t => t.id == templateID) then
      .ok { st with templates := st.templates.map (fun t =>
        if t.id == templateID then { t with name := name, description := description } else t) }
    else
      .error "template not found"

/-- `DeactivateTemplate` (part_005): permission gate then
`UPDATE templates SET is_active = false WHERE id = $1`. -/
def DeactivateTemplate (st : DBState) (templateID userID : Nat) : Except String DBState :=
  match templatePermission st templateID userID with
  | .error e => .error e
  | .ok (createdBy, role) =>
    if createdBy != userID && role != "owner" && role != "admin" then
      .error "insufficient permissions to deactivate template"
    else if st.templates.any (fun t => t.id == templateID) then
      .ok { st with templates := st.templates.map (fun t =>
        if t.id == templateID then { t with isActive := false } else t) }
    else
      .error "template not found"

/-- `GetTemplateFields` (part_005): access check, then the fields of the
template joined with `template_signers` on the field's signer id. -/
def GetTemplateFields (st : DBState) (templateID userID : Nat) :
    Except String (List TemplateFieldRow) :=
  match GetTemplateByID st templateID userID with
  | .error e => .error e
  | .ok _ =>
    .ok (st.template_fields.filter (fun f => f.templateId == templateID &&
      st.template_signers.any (fun s => s.id == f.signerId)))

/-- `GetTemplateSigners` (part_005): access check, then the signer rows of
the template. -/
def GetTemplateSigners (st : DBState) (templateID userID : Nat) :
    Except String (List TemplateSignerRow) :=
  match GetTemplateByID st templateID userID with
  | .error e => .error e
  | .ok _ =>
    .ok (st.template_signers.filter (fun s => s.templateId == templateID))

/-! ## Field/signer consistency (claims C3, C4, C10) -/

/-- The invariant of spec §8: every field of the template references a signer
of that same template. -/
def FieldSignerInv (st : DBState) (templateID : Nat) : Prop :=
  ∀ f ∈ st.template_fields, f.templateId = templateID →
    ∃ s ∈ st.template_signers, s.templateId = templateID ∧ s.id = f.signerId

instance FieldSignerInv.dec (st : DBState) (templateID : Nat) :
    Decidable (FieldSignerInv st templateID) := by
  unfold FieldSignerInv; exact inferInstance

theorem insertFields_signers_eq (l : List TemplateFieldInput) (st st' : DBState) (tid : Nat)
    (h : insertFields st tid l = .ok st') : st'.template_signers = st.template_signers := by
  induction l generalizing st with
  | nil =>
    simp only [insertFields] at h
    cases h
    rfl
  | cons i rest ih =>
    unfold insertFields at h
    simp only [] at h
    split at h
    · have h2 := ih _ h
      exact h2
    · cases h

theorem insertFields_templates_eq (l : List TemplateFieldInput) (st st' : DBState) (tid : Nat)
    (h : insertFields st tid l = .ok st') : st'.templates = st.templates := by
  induction l generalizing st with
  | nil =>
    simp only [insertFields] at h
    cases h
    rfl
  | cons i rest ih =>
    unfold insertFields at h
    simp only [] at h
    split at h
    · have h2 := ih _ h
      exact h2
    · cases h

theorem insertFields_memberships_eq (l : List TemplateFieldInput) (st st' : DBState) (tid : Nat)
    (h : insertFields st tid l = .ok st') : st'.memberships = st.memberships := by
  induction l generalizing st with
  | nil =>
    simp only [insertFields] at h
    cases h
    rfl
  | cons i rest ih =>
    unfold insertFields at h
    simp only [] at h
    split at h
    · have h2 := ih _ h
      exact h2
    · cases h

theorem insertFields_fields_sub (l : List TemplateFieldInput) (st st' : DBState) (tid : Nat)
    (h : insertFields st tid l = .ok st') :
    ∀ f ∈ st'.template_fields, f ∈ st.template_fields ∨
      (f.templateId = tid ∧ ∃ i ∈ l, f.signerId = i.signerId) := by
  induction l generalizing st with
  | nil =>
    simp only [insertFields] at h
    cases h
    exact fun f hf => Or.inl hf
  | cons i rest ih =>
    unfold insertFields at h
    simp only [] at h
    split at h
    · intro f hf
      rcases ih _ h f hf with hmem | ⟨htid, j, hj, hsig⟩
      · rcases List.mem_append.mp hmem with hmem | hmem
        · exact Or.inl hmem
        · rcases List.mem_singleton.mp hmem with rfl
          exact Or.inr ⟨rfl, i, List.mem_cons_self i rest, rfl⟩
      · exact Or.inr ⟨htid, j, List.mem_cons_of_mem i hj, hsig⟩
    · cases h

theorem insertSigners_fields_eq (l : List TemplateSignerInput) (st st' : DBState) (tid : Nat)
    (h : insertSigners st tid l = .ok st') : st'.template_fields = st.template_fields := by
  induction l generalizing st with
  | nil =>
    simp only [insertSigners] at h
    cases h
    rfl
  | cons i rest ih =>
    unfold insertSigners at h
    simp only [] at h
    split at h
    · have h2 := ih _ h
      exact h2
    · cases h

theorem insertSigners_templates_eq (l : List TemplateSignerInput) (st st' : DBState) (tid : Nat)
    (h : insertSigners st tid l = .ok st') : st'.templates = st.templates := by
  induction l generalizing st with
  | nil =>
    simp only [insertSigners] at h
    cases h
    rfl
  | cons i rest ih =>
    unfold insertSigners at h
    simp only [] at h
    split at h
    · have h2 := ih _ h
      exact h2
    · cases h

theorem insertSigners_memberships_eq (l : List TemplateSignerInput) (st st' : DBState) (tid : Nat)
    (h : insertSigners st tid l = .ok st') : st'.memberships = st.memberships := by
  induction l generalizing st with
  | nil =>
    simp only [insertSigners] at h
    cases h
    rfl
  | cons i rest ih =>
    unfold insertSigners at h
    simp only [] at h
    split at h
    · have h2 := ih _ h
      exact h2
    · cases h

/-- If no active row with the template's id is visible, `GetTemplateByID`
fails with its not-found/access-denied error. -/
theorem GetTemplateByID_none (ST : DBState) (tid uid : Nat)
    (hinact : ∀ t ∈ ST.templates, t.id = tid → t.isActive = false) :
    GetTemplateByID ST tid uid = .error "template not found or access denied" := by
  unfold GetTemplateByID
  cases hfind : ST.templates.find? (fun t => t.id == tid && t.isActive &&
      ST.memberships.any (fun m =>
        m.workspaceId == t.workspaceId && m.userId == uid && m.status == "active")) with
  | none => rfl
  | some t =>
    have hp := List.find?_some hfind
    have hm := List.mem_of_find?_eq_some hfind
    simp only [Bool.and_eq_true, beq_iff_eq] at hp
    obtain ⟨⟨h1, h2⟩, -⟩ := hp
    rw [hinact t hm h1] at h2
    cases h2

/-- Same, for the permission query of `UpdateTemplate`/`DeactivateTemplate`. -/
theorem templatePermission_none (ST : DBState) (tid uid : Nat)
    (hinact : ∀ t ∈ ST.templates, t.id = tid → t.isActive = false) :
    templatePermission ST tid uid = .error "template not found or access denied" := by
  unfold templatePermission
  cases hfind : ST.templates.find? (fun t => t.id == tid && t.isActive &&
      ST.memberships.any (fun m =>
        m.workspaceId == t.workspaceId && m.userId == uid && m.status == "active")) with
  | none => rfl
  | some t =>
    have hp := List.find?_some hfind
    have hm := List.mem_of_find?_eq_some hfind
    simp only [Bool.and_eq_true, beq_iff_eq] at hp
    obtain ⟨⟨h1, h2⟩, -⟩ := hp
    rw [hinact t hm h1] at h2
    cases h2

/-- If the template is still visible to the user and it has no field rows,
`GetTemplateFields` succeeds with the empty list. -/
theorem GetTemplateFields_ok_empty (ST : DBState) (tid uid : Nat)
    (hex : ∃ t ∈ ST.templates, (t.id == tid && t.isActive &&
      ST.memberships.any (fun m =>
        m.workspaceId == t.workspaceId && m.userId == uid && m.status == "active")) = true)
    (hnf : ∀ f ∈ ST.template_fields, f.templateId ≠ tid) :
    GetTemplateFields ST tid uid = .ok [] := by
  unfold GetTemplateFields GetTemplateByID
  cases hfind : ST.templates.find? (fun t => t.id == tid && t.isActive &&
      ST.memberships.any (fun m =>
        m.workspaceId == t.workspaceId && m.userId == uid && m.status == "active")) with
  | none =>
    rw [List.find?_eq_none] at hfind
    rcases hex with ⟨t, ht, hp⟩
    exact absurd hp (by simpa using hfind t ht)
  | some t =>
    simp only []
    congr 1
    rw [List.filter_eq_nil_iff]
    intro f hf
    simp only [Bool.and_eq_true, beq_iff_eq, not_and]
    intro h1
    exact absurd h1 (hnf f hf)

/-- C3 as stated is false: the database-level `ReplaceTemplateFields` never
checks that a field's `signer_id` belongs to the same template — the FK in
migration 000004 only requires the signer row to exist somewhere. In
`c3State`, template 10 and template 11 live in workspace 1 and signer 20
belongs to template 11; replacing template 10's fields with a field that
references signer 20 succeeds, leaving template 10 with a field whose signer
is outside the template. -/
def c3State : DBState :=
  { templates :=
      [⟨10, "A", "", "bkt", "keyA", "hA", 1, "application/pdf", 1, 1, 1, true, 1⟩,
       ⟨11, "B", "", "bkt", "keyB", "hB", 1, "application/pdf", 1, 1, 1, true, 1⟩]
    template_signers := [⟨20, 11, 1, "S", "#3B82F6"⟩]
    template_fields := []
    memberships := [⟨1, 1, "owner", "active"⟩]
    audit_log := []
    nextId := 100 }

/-- C3 counterexample: the call succeeds and the invariant is false on the
resulting state. -/
theorem c3_counterexample :
    (ReplaceTemplateFields c3State 10 [⟨20, "f1", "text", "", "", "pos", "rules", false, 1⟩] 1).map
      (fun stR => decide (FieldSignerInv stR 10)) = .ok false := by
  rfl

/-- C3 (amended): after a successful `ReplaceTemplateSigners` the invariant
holds unconditionally (the field set is emptied), and after a successful
`ReplaceTemplateFields` it holds provided every supplied field references a
signer of the same template — which is what the HTTP handler guarantees by
resolving signer references against `GetTemplateSigners` of that template. -/
theorem c3_field_signer_subset (st stF stS : DBState) (tid uid : Nat)
    (fields : List TemplateFieldInput) (signers : List TemplateSignerInput) :
    ((∀ i ∈ fields, ∃ s ∈ st.template_signers, s.templateId = tid ∧ s.id = i.signerId) →
      ReplaceTemplateFields st tid fields uid = .ok stF → FieldSignerInv stF tid) ∧
    (ReplaceTemplateSigners st tid signers uid = .ok stS → FieldSignerInv stS tid) := by
  constructor
  · intro hin h
    unfold ReplaceTemplateFields at h
    split at h
    · cases h
    · rename_i template hg
      split at h
      · cases h
      · rename_i role hr
        split at h
        · cases h
        · split at h
          · cases h
          · rename_i st2 hins
            injection h with h
            subst h
            intro f hf htid
            have hsub := insertFields_fields_sub fields _ st2 tid hins f hf
            have hsigeq := insertFields_signers_eq fields _ st2 tid hins
            rcases hsub with hmem | ⟨-, i, hi, hsig⟩
            · have hp := List.of_mem_filter hmem
              simp only [Bool.not_eq_true', beq_eq_false_iff_ne] at hp
              exact absurd htid hp
            · rcases hin i hi with ⟨s, hs, hstid, hsid⟩
              refine ⟨s, ?_, hstid, hsid.trans hsig.symm⟩
              show s ∈ st2.template_signers
              rw [hsigeq]
              exact hs
  · intro h
    unfold ReplaceTemplateSigners at h
    split at h
    · cases h
    · rename_i template hg
      split at h
      · cases h
      · rename_i role hr
        split at h
        · cases h
        · split at h
          · cases h
          · rename_i st3 hins
            injection h with h
            subst h
            intro f hf htid
            have hfe := insertSigners_fields_eq signers _ st3 tid hins
            have hf2 : f ∈ st3.template_fields := hf
            rw [hfe] at hf2
            have hmem1 := List.mem_of_mem_filter hf2
            have hp := List.of_mem_filter hmem1
            simp only [Bool.not_eq_true', beq_eq_false_iff_ne] at hp
            exact absurd htid hp

/-- A healthy single-template state used to witness the amended C3 and C4. -/
def catalogState : DBState :=
  { templates := [⟨30, "T", "", "bkt", "keyT", "hT", 1, "application/pdf", 1, 1, 1, true, 1⟩]
    template_signers := [⟨40, 30, 1, "S", "#3B82F6"⟩]
    template_fields := []
    memberships := [⟨1, 1, "owner", "active"⟩]
    audit_log := []
    nextId := 100 }

/-- Witness for the amended C3: a concrete `ReplaceTemplateFields` call whose
field references its own template's signer yields a state satisfying the
invariant. -/
theorem c3_field_signer_subset_witness :
    (ReplaceTemplateFields catalogState 30 [⟨40, "f1", "text", "", "", "pos", "rules", false, 1⟩] 1).map
      (fun stR => decide (FieldSignerInv stR 30)) = .ok true := by
  cases h : ReplaceTemplateFields catalogState 30
      [⟨40, "f1", "text", "", "", "pos", "rules", false, 1⟩] 1 with
  | error e =>
    have hok : (ReplaceTemplateFields catalogState 30
        [⟨40, "f1", "text", "", "", "pos", "rules", false, 1⟩] 1).toOption.isSome = true := by
      decide
    rw [h] at hok
    cases hok
  | ok stR =>
    have hinv := (c3_field_signer_subset catalogState stR stR 30 1
      [⟨40, "f1", "text", "", "", "pos", "rules", false, 1⟩] []).1 (by decide) h
    simp only [Except.map]
    rw [decide_eq_true hinv]

/-- C4: after every successful `ReplaceTemplateSigners` call, `GetTemplateFields`
for the same template and caller returns the empty list — the transaction
deletes all of the template's fields and the signer cascade can only delete
more. -/
theorem c4_replace_signers_empties_fields (st st' : DBState) (tid uid : Nat)
    (signers : List TemplateSignerInput)
    (h : ReplaceTemplateSigners st tid signers uid = .ok st') :
    GetTemplateFields st' tid uid = .ok [] := by
  unfold ReplaceTemplateSigners at h
  split at h
  · cases h
  · rename_i template hg
    split at h
    · cases h
    · rename_i role hr
      split at h
      · cases h
      · split at h
        · cases h
        · rename_i st3 hins
          injection h with h
          subst h
          have hfe := insertSigners_fields_eq signers _ st3 tid hins
          have hte := insertSigners_templates_eq signers _ st3 tid hins
          have hme := insertSigners_memberships_eq signers _ st3 tid hins
          -- `GetTemplateByID st tid uid = .ok template` gives the visible row.
          unfold GetTemplateByID at hg
          cases hfind : st.templates.find? (fun t => t.id == tid && t.isActive &&
              st.memberships.any (fun m =>
                m.workspaceId == t.workspaceId && m.userId == uid && m.status == "active")) with
          | none => rw [hfind] at hg; cases hg
          | some t0 =>
            rw [hfind] at hg
            have hp := List.find?_some hfind
            have hmem := List.mem_of_find?_eq_some hfind
            apply GetTemplateFields_ok_empty
            · -- the bumped row for t0 is still visible
              refine ⟨if t0.id == tid then { t0 with version := t0.version + 1 } else t0, ?_, ?_⟩
              · show _ ∈ (bumpTemplateVersion st3 tid).templates
                unfold bumpTemplateVersion
                simp only []
                rw [hte]
                exact List.mem_map_of_mem _ hmem
              · show ((if t0.id == tid then { t0 with version := t0.version + 1 } else t0).id == tid &&
                  _ && (bumpTemplateVersion st3 tid).memberships.any _) = true
                unfold bumpTemplateVersion
                simp only []
                rw [hme]
                by_cases h0 : (t0.id == tid) = true
                · simp only [h0, if_true]
                  rw [h0] at hp
                  exact hp
                · simp only [h0, if_false]
                  exact hp
            · -- no field of the template survives the deletes
              intro f hf htid
              have hf2 : f ∈ st3.template_fields := hf
              rw [hfe] at hf2
              have hmem1 := List.mem_of_mem_filter hf2
              have hpf := List.of_mem_filter hmem1
              simp only [Bool.not_eq_true', beq_eq_false_iff_ne] at hpf
              exact hpf htid

/-- Witness for C4: replacing the signers of the concrete `catalogState`
template yields a state whose `GetTemplateFields` is `ok []`. -/
theorem c4_replace_signers_empties_fields_witness :
    (ReplaceTemplateSigners catalogState 30 [⟨1, "S2", "#3B82F6"⟩] 1).map
      (fun stR => GetTemplateFields stR 30 1) = .ok (.ok []) := by
  cases h : ReplaceTemplateSigners catalogState 30 [⟨1, "S2", "#3B82F6"⟩] 1 with
  | error e =>
    have hok : (ReplaceTemplateSigners catalogState 30
        [⟨1, "S2", "#3B82F6"⟩] 1).toOption.isSome = true := by decide
    rw [h] at hok
    cases hok
  | ok stR =>
    simp only [Except.map]
    rw [c4_replace_signers_empties_fields catalogState stR 30 1 [⟨1, "S2", "#3B82F6"⟩] h]

/-- After a successful `DeactivateTemplate`, every template row carrying the
deactivated id is inactive, and memberships are untouched. -/
theorem DeactivateTemplate_inactive (st st' : DBState) (tid uid : Nat)
    (h : DeactivateTemplate st tid uid = .ok st') :
    (∀ t ∈ st'.templates, t.id = tid → t.isActive = false) ∧
    st'.memberships = st.memberships := by
  unfold DeactivateTemplate at h
  split at h
  · cases h
  · split at h
    · cases h
    · split at h
      · injection h with h
        subst h
        constructor
        · intro t ht htid
          rcases List.mem_map.mp ht with ⟨t0, -, rfl⟩
          by_cases h0 : (t0.id == tid) = true
          · rw [if_pos h0]
          · rw [if_neg h0] at htid ⊢
            exact absurd (beq_iff_eq.mpr htid) h0
        · rfl
      · cases h

/-- C10: once `DeactivateTemplate` succeeds, the template (queried with
`is_active = true` everywhere) is invisible to every user: `GetTemplateByID`,
`UpdateTemplate`, `ReplaceTemplateFields`, `ReplaceTemplateSigners`,
`GetTemplateFields`, `GetTemplateSigners`, and even a second
`DeactivateTemplate` all fail with the not-found/access-denied error —
deactivation is not idempotent. -/
theorem c10_deactivate_hides_template (st st' : DBState) (tid uid : Nat)
    (h : DeactivateTemplate st tid uid = .ok st') (u : Nat) (nm ds : String)
    (fs : List TemplateFieldInput) (sg : List TemplateSignerInput) :
    GetTemplateByID st' tid u = .error "template not found or access denied" ∧
    UpdateTemplate st' tid nm ds u = .error "template not found or access denied" ∧
    ReplaceTemplateFields st' tid fs u = .error "template not found or access denied" ∧
    ReplaceTemplateSigners st' tid sg u = .error "template not found or access denied" ∧
    GetTemplateFields st' tid u = .error "template not found or access denied" ∧
    GetTemplateSigners st' tid u = .error "template not found or access denied" ∧
    DeactivateTemplate st' tid u = .error "template not found or access denied" := by
  have hinact := (DeactivateTemplate_inactive st st' tid uid h).1
  have hbyid := GetTemplateByID_none st' tid u hinact
  have hperm := templatePermission_none st' tid u hinact
  refine ⟨hbyid, ?_, ?_, ?_, ?_, ?_, ?_⟩
  · unfold UpdateTemplate
    rw [hperm]
  · unfold ReplaceTemplateFields
    rw [hbyid]
  · unfold ReplaceTemplateSigners
    rw [hbyid]
  · unfold GetTemplateFields
    rw [hbyid]
  · unfold GetTemplateSigners
    rw [hbyid]
  · unfold DeactivateTemplate
    rw [hperm]

/-- Witness for C10: deactivating the concrete `catalogState` template
succeeds, and a second deactivation of the same template then fails. -/
theorem c10_deactivate_hides_template_witness :
    (DeactivateTemplate catalogState 30 1).map (fun stR => DeactivateTemplate stR 30 1) =
      .ok (.error "template not found or access denied") := by
  cases h : DeactivateTemplate catalogState 30 1 with
  | error e =>
    have hok : (DeactivateTemplate catalogState 30 1).toOption.isSome = true := by decide
    rw [h] at hok
    cases hok
  | ok stR =>
    simp only [Except.map]
    rw [(c10_deactivate_hides_template catalogState stR 30 1 h 1 "" "" [] []).2.2.2.2.2.2]

/-! ## Digital signatures schema (claim C2)

The repository contains no signing code; the only artifact governing
`DigitalSignature` rows is the `digital_signatures` table of migration
000004, modelled here constraint by constraint. -/

def emailLocalChar (c : Char) : Bool :=
  c.isAlpha || c.isDigit || c == '.' || c == '_' || c == '%' || c == '+' || c == '-'

def emailDomainChar (c : Char) : Bool :=
  c.isAlpha || c.isDigit || c == '.' || c == '-'

/-- Split a character list at every occurrence of `sep` (the pieces never
contain `sep`), mirroring the splitting a regex anchor on `@` performs. -/
def splitOnChar (sep : Char) : List Char → List (List Char)
  | [] => [[]]
  | ch :: rest =>
    match splitOnChar sep rest with
    | [] => if ch == sep then [[], [ch]] else [[ch]]
    | h :: t => if ch == sep then [] :: h :: t else (ch :: h) :: t

/-- The CHECK `digital_signatures_valid_email` regex
`^[A-Za-z0-9._%+-]+@[A-Za-z0-9.-]+\.[A-Za-z]{2,}$` as a decision procedure:
one at sign separating a non-empty local part from a domain whose last dot is
followed by at least two letters. -/
def validSignerEmail (s : String) : Bool :=
  match splitOnChar '@' s.toList with
  | [l, r] =>
    !l.isEmpty && l.all emailLocalChar &&
    r.all emailDomainChar &&
    (let rs := r.reverse
     let tld := rs.takeWhile (· != '.')
     decide (tld.length + 1 < rs.length) &&
     decide (2 ≤ tld.length) && tld.all (fun c => c.isAlpha))
  | _ => false

/-- A `digital_signatures` row (timestamps/ip/user-agent omitted; the
nullable columns carry empty strings when absent, which no constraint
reads). -/
structure DigitalSignatureRow where
  id : Nat
  documentId : Nat
  documentSignerId : Nat
  signerEmail : String
  signerName : String
  finalDocumentHash : String
  digitalSignature : String
  certificate : String
  signatureAlgorithm : String
deriving DecidableEq, Repr

/-- Every constraint migration 000004 places on the `digital_signatures`
table: primary-key uniqueness of `id`, the email CHECK, and the two foreign
keys — and nothing else. In particular there is no
UNIQUE (document_id, document_signer_id), unlike `form_submissions`, which
does get UNIQUE (document_id, document_signer_id, field_id). -/
def digitalSignaturesConstraintsOk (docIds docSignerIds : List Nat)
    (rows : List DigitalSignatureRow) : Bool :=
  rows.all (fun r => validSignerEmail r.signerEmail &&
    docIds.contains r.documentId && docSignerIds.contains r.documentSignerId) &&
  decide (rows.map (fun r => r.id)).Nodup

/-- The invariant claimed by the spec: at most one signature row per
(document, document signer) pair. -/
def digitalSignaturesAtMostOnePerSigner (rows : List DigitalSignatureRow) : Bool :=
  decide (rows.map (fun r => (r.documentId, r.documentSignerId))).Nodup

/-- Two distinct signature rows for the same (document 100, signer 200)
pair. -/
def c2Rows : List DigitalSignatureRow :=
  [⟨1, 100, 200, "a@b.co", "N", "h", "sigA", "certA", "RSA-SHA256"⟩,
   ⟨2, 100, 200, "a@b.co", "N", "h", "sigB", "certB", "RSA-SHA256"⟩]

/-- C2 fails against the schema: a store holding two signature rows for the
same (document_id, document_signer_id) pair satisfies every constraint of
the `digital_signatures` table — the migration has no unique constraint over
that pair and the repository has no signing code to reject the second row —
while the claimed at-most-one invariant is false for it. -/
theorem c2_schema_admits_duplicate_signatures :
    digitalSignaturesConstraintsOk [100] [200] c2Rows = true ∧
    digitalSignaturesAtMostOnePerSigner c2Rows = false := by
  decide

/-! ## CreateTemplateWithSignersAndFields and the audit log (claim C8) -/

/-- The caller-supplied template columns (the id is generated on insert). -/
structure TemplateInput where
  name : String
  description : String
  s3Bucket : String
  s3Key : String
  pdfHash : String
  fileSize : Int
  mimeType : String
  totalPages : Int
  createdBy : Nat
  workspaceId : Nat
  isActive : Bool
  version : Int
deriving DecidableEq, Repr

/-- CHECK constraints of the `templates` table. -/
def templateInsertOk (r : TemplateRow) : Bool :=
  !r.name.isEmpty && decide (0 < r.fileSize) && decide (0 < r.totalPages)

/-- `CreateTemplateWithSignersAndFields` (part_005): one transaction that
inserts the template row, the signers, the fields, and finally an audit-log
row. The Go code deliberately ignores the audit INSERT's error ("Don't fail
the whole operation for audit log errors"), but the INSERT runs inside the
same transaction: once any statement fails, Postgres puts the transaction in
an aborted state and the subsequent `tx.Commit()` fails, so the whole
operation returns the commit error and nothing is persisted.
`auditInsertOk` is the outcome of the audit INSERT; it is genuinely
falsifiable — the audit details are built by `fmt.Sprintf` without JSON
escaping, so a template name containing a double quote produces invalid
JSONB and fails the statement. -/
def CreateTemplateWithSignersAndFields (st : DBState) (template : TemplateInput)
    (signers : List TemplateSignerInput) (fields : List TemplateFieldInput)
    (auditInsertOk : Bool) : Except String DBState :=
  if templateInsertOk ⟨st.nextId, template.name, template.description, template.s3Bucket,
      template.s3Key, template.pdfHash, template.fileSize, template.mimeType,
      template.totalPages, template.createdBy, template.workspaceId, template.isActive,
      template.version⟩ = false then
    .error "failed to create template"
  else
    match insertSigners
      { st with
        templates := st.templates ++ [⟨st.nextId, template.name, template.description,
          template.s3Bucket, template.s3Key, template.pdfHash, template.fileSize,
          template.mimeType, template.totalPages, template.createdBy, template.workspaceId,
          template.isActive, template.version⟩],
        nextId := st.nextId + 1 }
      st.nextId signers with
    | .error e => .error e
    | .ok st2 =>
      match insertFields st2 st.nextId fields with
      | .error e => .error e
      | .ok st3 =>
        if auditInsertOk then
          .ok { st3 with audit_log :=
            st3.audit_log ++ [⟨st.nextId, template.createdBy, "template_created", template.name⟩] }
        else
          .error "failed to commit transaction"

/-- C8 fails on the template-creation path: with identical, otherwise valid
inputs, the operation succeeds when the audit INSERT succeeds, but returns
the commit error (persisting nothing) when the audit INSERT fails — the
audit failure does abort the primary action, contrary to the claim and to
the code's own comment. -/
theorem c8_audit_failure_fails_create :
    (CreateTemplateWithSignersAndFields catalogState
      ⟨"T2", "", "bkt", "key2", "h2", 1, "application/pdf", 1, 1, 1, true, 1⟩
      [] [] true).toOption.isSome = true ∧
    CreateTemplateWithSignersAndFields catalogState
      ⟨"T2", "", "bkt", "key2", "h2", 1, "application/pdf", 1, 1, 1, true, 1⟩
      [] [] false = .error "failed to commit transaction" := by
  decide

/-! ## The createTemplateHandler route (claims C5, C6, C7)

The handler of part_002 (the template-data variant, lines 67–213) is
modelled as a pure function of the parsed request, the S3 key the upload
would pick, and the database outcome; its effects on the content store and
the database are recorded as an event trace. Go's string helpers are
re-implemented structurally so every definition evaluates in the kernel. -/

/-- ASCII lowercasing of one character, as `strings.ToLower` does for the
ASCII filenames involved. -/
def lowerChar (c : Char) : Char :=
  if 65 ≤ c.toNat && c.toNat ≤ 90 then Char.ofNat (c.toNat + 32) else c

/-- `strings.HasSuffix(strings.ToLower(filename), ".pdf")`. -/
def hasSuffixPdf (filename : String) : Bool :=
  (filename.toList.map lowerChar).reverse.take 4 == ['f', 'd', 'p', '.']

/-- `strings.TrimSpace`. -/
def trimChars (l : List Char) : List Char :=
  ((l.dropWhile Char.isWhitespace).reverse.dropWhile Char.isWhitespace).reverse

/-- A JSON value inside the position object: Go's `encoding/json` decodes
every JSON number into `float64` (modelled as `ℚ`), anything else fails the
`value.(float64)` assertion. -/
inductive JVal
  | num (q : ℚ)
  | other
deriving DecidableEq

/-- `SignerRequest` from the route JSON (fieldCount is never read). -/
structure SignerRequest where
  id : Int
  name : String
  color : String
deriving DecidableEq

/-- `FieldRequest` from the route JSON. -/
structure FieldRequest where
  id : String
  type : String
  page : Int
  position : List (String × JVal)
  label : String
  required : Bool
  signer : Int
deriving DecidableEq

/-- `CreateTemplateRequest` from the route JSON (the unused `document` field
is omitted). -/
structure CreateTemplateRequest where
  totalPages : Int
  fields : List FieldRequest
  signers : List SignerRequest
deriving DecidableEq

/-- Map lookup in the decoded position object. -/
def lookupPos (positionData : List (String × JVal)) (key : String) : Option JVal :=
  (positionData.find? (fun p => p.1 == key)).map (fun p => p.2)

/-- One iteration of `validatePositionData`'s loop over
`["x","y","width","height"]`: presence, numeric type, then width/height > 0
or x/y ≥ 0. -/
def checkPosField (positionData : List (String × JVal)) (key : String) : Except String Unit :=
  match lookupPos positionData key with
  | none => .error ("missing required field " ++ key)
  | some .other => .error ("field " ++ key ++ " must be a number")
  | some (.num q) =>
    if key == "width" || key == "height" then
      if q ≤ 0 then .error ("field " ++ key ++ " must be greater than 0") else .ok ()
    else if q < 0 then .error ("field " ++ key ++ " must be non-negative") else .ok ()

/-- `validatePositionData` (part_002, template-data variant: no page check). -/
def validatePositionData (positionData : List (String × JVal)) : Except String Unit :=
  match checkPosField positionData "x" with
  | .error e => .error e
  | .ok _ =>
    match checkPosField positionData "y" with
    | .error e => .error e
    | .ok _ =>
      match checkPosField positionData "width" with
      | .error e => .error e
      | .ok _ => checkPosField positionData "height"

/-- The loop body of `convertAndValidateSigners`: positive id, id unused so
far, non-empty trimmed name, raw name at most 255 bytes, valid hex color;
accumulates the converted signers and the `signerOrderToID` keys. -/
def convertSignersLoop (acc : List TemplateSignerInput) (usedOrders : List Int) :
    List SignerRequest → Except String (List TemplateSignerInput × List Int)
  | [] => .ok (acc, usedOrders)
  | req :: rest =>
    if req.id ≤ 0 then .error "signer ID must be positive"
    else if req.id ∈ usedOrders then .error "duplicate signer ID"
    else if String.mk (trimChars req.name.toList) = "" then .error "signer name is required"
    else if 255 < req.name.utf8ByteSize then .error "signer name too long"
    else if isValidHexColor req.color = false then .error "invalid color format"
    else
      convertSignersLoop (acc ++ [⟨req.id, String.mk (trimChars req.name.toList), req.color⟩])
        (usedOrders ++ [req.id]) rest

/-- `convertAndValidateSigners` (part_002). -/
def convertAndValidateSigners (signerRequests : List SignerRequest) :
    Except String (List TemplateSignerInput × List Int) :=
  if signerRequests.isEmpty then .error "at least one signer is required"
  else convertSignersLoop [] [] signerRequests

/-- The loop body of `convertAndValidateFields`: recognized type, non-empty
trimmed id, id unused so far, signer reference present in the order map,
valid position. The produced field rows carry the signer order as stand-in
for the mapped uuid; the JSON re-serialization of the position is not
modelled (no verified property reads it). -/
def convertFieldsLoop (signerOrders : List Int) (acc : List TemplateFieldInput)
    (fieldNames : List String) : List FieldRequest → Except String (List TemplateFieldInput)
  | [] => .ok acc
  | req :: rest =>
    if validFieldTypes.contains req.type = false then
      .error ("invalid field type " ++ req.type)
    else if String.mk (trimChars req.id.toList) = "" then .error "field ID is required"
    else if req.id ∈ fieldNames then .error ("duplicate field ID " ++ req.id)
    else if req.signer ∉ signerOrders then .error "field references non-existent signer"
    else
      match validatePositionData req.position with
      | .error e => .error ("invalid position data: " ++ e)
      | .ok _ =>
        convertFieldsLoop signerOrders
          (acc ++ [⟨req.signer.toNat, req.id, req.type, req.label, "", "", "", req.required, 1⟩])
          (fieldNames ++ [req.id]) rest

/-- `convertAndValidateFields` (part_002). -/
def convertAndValidateFields (fieldRequests : List FieldRequest) (signerOrders : List Int) :
    Except String (List TemplateFieldInput) :=
  convertFieldsLoop signerOrders [] [] fieldRequests

/-- One effect of the handler on the outside world, in execution order. -/
inductive S3Event
  | upload (key : String)
  | delete (key : String)
  | dbCreate (ok : Bool)
deriving DecidableEq

/-- The parsed multipart request. `pdf` is the uploaded file (name, bytes),
`none` when the form has no `pdf` part. `templateData` is `none` when the
form value is empty (Go then keeps the zero value), `some none` when it is
present but not valid JSON, and `some (some td)` when it parses. -/
structure HandlerRequest where
  role : String
  name : String
  description : String
  pdf : Option (String × List Nat)
  templateData : Option (Option CreateTemplateRequest)
deriving DecidableEq

/-- The template data the handler works with after JSON handling. -/
def effectiveTemplateData (req : HandlerRequest) : CreateTemplateRequest :=
  match req.templateData with
  | some (some t) => t
  | _ => ⟨0, [], []⟩

/-- HTTP status plus the content-store/database events the handler issued. -/
structure HandlerResult where
  status : Nat
  events : List S3Event
deriving DecidableEq

/-- `createTemplateHandler` (part_002, lines 67–213): permission check and
basic field validation, PDF presence/suffix/non-emptiness, template-data
JSON, then — before signer and field validation — the S3 upload; signer or
field rejection deletes the uploaded object, and so does a database
failure. -/
def createTemplateHandler (req : HandlerRequest) (s3Key : String) (dbOk : Bool) :
    HandlerResult :=
  if req.role == "viewer" then ⟨403, []⟩
  else if req.name = "" then ⟨400, []⟩
  else if 255 < req.name.utf8ByteSize then ⟨400, []⟩
  else if 500 < req.description.utf8ByteSize then ⟨400, []⟩
  else
    match req.pdf with
    | none => ⟨400, []⟩
    | some (filename, fileBytes) =>
      if hasSuffixPdf filename = false then ⟨400, []⟩
      else if fileBytes.isEmpty then ⟨400, []⟩
      else if req.templateData = some none then ⟨400, []⟩
      else
        match convertAndValidateSigners (effectiveTemplateData req).signers with
        | .error _ => ⟨400, [.upload s3Key, .delete s3Key]⟩
        | .ok (_, signerOrders) =>
          match convertAndValidateFields (effectiveTemplateData req).fields signerOrders with
          | .error _ => ⟨400, [.upload s3Key, .delete s3Key]⟩
          | .ok _ =>
            if dbOk then ⟨201, [.upload s3Key, .dbCreate true]⟩
            else ⟨500, [.upload s3Key, .dbCreate false, .delete s3Key]⟩

/-- Replay of the S3 events against a store (a multiset of keys);
`DeleteFile` removes the object, `dbCreate` touches nothing. -/
def applyS3 (events : List S3Event) (store : List String) : List String :=
  events.foldl (fun s e =>
    match e with
    | .upload k => k :: s
    | .delete k => s.erase k
    | .dbCreate _ => s) store

/-- Exhaustive shape analysis of the handler: it either rejects before any
effect, rejects after upload and compensating delete, or reaches the
database, where success/failure is decided by the database outcome alone. -/
theorem createTemplateHandler_cases (req : HandlerRequest) (key : String) :
    (∀ dbOk, createTemplateHandler req key dbOk = ⟨403, []⟩) ∨
    (∀ dbOk, createTemplateHandler req key dbOk = ⟨400, []⟩) ∨
    (∀ dbOk, createTemplateHandler req key dbOk = ⟨400, [.upload key, .delete key]⟩) ∨
    (createTemplateHandler req key true = ⟨201, [.upload key, .dbCreate true]⟩ ∧
     createTemplateHandler req key false = ⟨500, [.upload key, .dbCreate false, .delete key]⟩) := by
  by_cases h1 : (req.role == "viewer") = true
  · exact Or.inl (fun dbOk => by simp [createTemplateHandler, h1])
  · by_cases h2 : req.name = ""
    · exact Or.inr (Or.inl (fun dbOk => by simp [createTemplateHandler, h1, h2]))
    · by_cases h3 : 255 < req.name.utf8ByteSize
      · exact Or.inr (Or.inl (fun dbOk => by simp [createTemplateHandler, h1, h2, h3]))
      · by_cases h4 : 500 < req.description.utf8ByteSize
        · exact Or.inr (Or.inl (fun dbOk => by simp [createTemplateHandler, h1, h2, h3, h4]))
        · rcases hpdf : req.pdf with - | ⟨filename, fileBytes⟩
          · exact Or.inr (Or.inl (fun dbOk => by
              simp [createTemplateHandler, h1, h2, h3, h4, hpdf]))
          · by_cases h5 : hasSuffixPdf filename = false
            · exact Or.inr (Or.inl (fun dbOk => by
                simp [createTemplateHandler, h1, h2, h3, h4, hpdf, h5]))
            · by_cases h6 : fileBytes.isEmpty = true
              · exact Or.inr (Or.inl (fun dbOk => by
                  simp [createTemplateHandler, h1, h2, h3, h4, hpdf, h5, h6]))
              · by_cases h7 : req.templateData = some none
                · exact Or.inr (Or.inl (fun dbOk => by
                    simp [createTemplateHandler, h1, h2, h3, h4, hpdf, h5, h6, h7]))
                · cases hs : convertAndValidateSigners (effectiveTemplateData req).signers with
                  | error e =>
                    exact Or.inr (Or.inr (Or.inl (fun dbOk => by
                      simp [createTemplateHandler, h1, h2, h3, h4, hpdf, h5, h6, h7, hs])))
                  | ok sres =>
                    cases hf : convertAndValidateFields (effectiveTemplateData req).fields
                        sres.2 with
                    | error e =>
                      exact Or.inr (Or.inr (Or.inl (fun dbOk => by
                        simp [createTemplateHandler, h1, h2, h3, h4, hpdf, h5, h6, h7, hs, hf])))
                    | ok fres =>
                      refine Or.inr (Or.inr (Or.inr ⟨?_, ?_⟩)) <;>
                        simp [createTemplateHandler, h1, h2, h3, h4, hpdf, h5, h6, h7, hs, hf]

/-- C7 as stated is false: for a request whose basic fields are valid but
whose signer list is invalid (here: empty, because `templateData` is
absent), the handler still writes the encrypted PDF to the content store
before validating signers — the upload event is in the trace even though the
request is rejected. -/
theorem c7_counterexample :
    (createTemplateHandler ⟨"member", "a", "", some ("doc.pdf", [1]), none⟩ "k1" true).status
      = 400 ∧
    S3Event.upload "k1" ∈
      (createTemplateHandler ⟨"member", "a", "", some ("doc.pdf", [1]), none⟩ "k1" true).events := by
  decide

/-- C7 (amended): the basic-field checks do run before any write, but signer
and field validation run after the content-store upload; what holds instead
is that a rejected request never reaches the database and its net effect on
the content store is nil — the uploaded object is deleted again. -/
theorem c7_no_net_writes_on_rejection (req : HandlerRequest) (key : String)
    (hrej : (createTemplateHandler req key true).status ≠ 201) :
    (∀ b, S3Event.dbCreate b ∉ (createTemplateHandler req key true).events) ∧
    (∀ store, applyS3 (createTemplateHandler req key true).events store = store) := by
  rcases createTemplateHandler_cases req key with h | h | h | ⟨h, -⟩
  · rw [h true]
    exact ⟨fun b => by simp, fun store => rfl⟩
  · rw [h true]
    exact ⟨fun b => by simp, fun store => rfl⟩
  · rw [h true]
    refine ⟨fun b => by simp, fun store => ?_⟩
    simp [applyS3]
  · rw [h] at hrej
    exact absurd rfl hrej

/-- Witness for the amended C7 at the concrete rejected request. -/
theorem c7_no_net_writes_on_rejection_witness :
    (∀ b, S3Event.dbCreate b ∉
      (createTemplateHandler ⟨"member", "a", "", some ("doc.pdf", [1]), none⟩ "k1" true).events) ∧
    (∀ store, applyS3
      (createTemplateHandler ⟨"member", "a", "", some ("doc.pdf", [1]), none⟩ "k1" true).events
      store = store) :=
  c7_no_net_writes_on_rejection ⟨"member", "a", "", some ("doc.pdf", [1]), none⟩ "k1" (by decide)

/-- C6: for every request that passes validation (it would be accepted were
the database to succeed), the upload to the content store happens before the
database call — the trace is exactly upload, failed create, delete — and
when the database creation fails the uploaded object is deleted again, so
the store is left unchanged. -/
theorem c6_compensating_cleanup (req : HandlerRequest) (key : String)
    (hval : (createTemplateHandler req key true).status = 201) :
    createTemplateHandler req key false =
      ⟨500, [.upload key, .dbCreate false, .delete key]⟩ ∧
    (∀ store, applyS3 (createTemplateHandler req key false).events store = store) := by
  rcases createTemplateHandler_cases req key with h | h | h | ⟨-, h⟩
  · rw [h true] at hval
    cases hval
  · rw [h true] at hval
    cases hval
  · rw [h true] at hval
    cases hval
  · refine ⟨h, fun store => ?_⟩
    rw [h]
    simp [applyS3]

/-- Witness for C6 at a concrete fully valid request. -/
theorem c6_compensating_cleanup_witness :
    createTemplateHandler
      ⟨"member", "T", "", some ("doc.pdf", [1]),
        some (some ⟨1,
          [⟨"f1", "text", 1,
            [("x", .num 0), ("y", .num 0), ("width", .num 1), ("height", .num 1)],
            "L", true, 1⟩],
          [⟨1, "Buyer", "#3B82F6"⟩]⟩)⟩ "k1" false =
      ⟨500, [.upload "k1", .dbCreate false, .delete "k1"]⟩ ∧
    (∀ store, applyS3
      (createTemplateHandler
        ⟨"member", "T", "", some ("doc.pdf", [1]),
          some (some ⟨1,
            [⟨"f1", "text", 1,
              [("x", .num 0), ("y", .num 0), ("width", .num 1), ("height", .num 1)],
              "L", true, 1⟩],
            [⟨1, "Buyer", "#3B82F6"⟩]⟩)⟩ "k1" false).events store = store) :=
  c6_compensating_cleanup _ "k1" (by decide)

/-! ### Characterizations of the validation loops (for claim C5) -/

theorem checkPosField_ok_iff_nonneg (pd : List (String × JVal)) (key : String)
    (hk : (key == "width" || key == "height") = false) :
    checkPosField pd key = .ok () ↔ ∃ q, lookupPos pd key = some (.num q) ∧ 0 ≤ q := by
  unfold checkPosField
  cases hl : lookupPos pd key with
  | none => simp
  | some v =>
    cases v with
    | other => simp
    | num q =>
      rw [hk]
      simp only [Bool.false_eq_true, if_false]
      by_cases hq : q < 0
      · rw [if_pos hq]
        simp
        exact hq
      · rw [if_neg hq]
        simp
        exact not_lt.mp hq

theorem checkPosField_ok_iff_pos (pd : List (String × JVal)) (key : String)
    (hk : (key == "width" || key == "height") = true) :
    checkPosField pd key = .ok () ↔ ∃ q, lookupPos pd key = some (.num q) ∧ 0 < q := by
  unfold checkPosField
  cases hl : lookupPos pd key with
  | none => simp
  | some v =>
    cases v with
    | other => simp
    | num q =>
      rw [hk]
      simp only [if_true]
      by_cases hq : q ≤ 0
      · rw [if_pos hq]
        simp
        exact hq
      · rw [if_neg hq]
        simp
        exact not_le.mp hq

theorem validatePositionData_ok_iff (pd : List (String × JVal)) :
    validatePositionData pd = .ok () ↔
      ((∃ q, lookupPos pd "x" = some (.num q) ∧ 0 ≤ q) ∧
       (∃ q, lookupPos pd "y" = some (.num q) ∧ 0 ≤ q) ∧
       (∃ q, lookupPos pd "width" = some (.num q) ∧ 0 < q) ∧
       (∃ q, lookupPos pd "height" = some (.num q) ∧ 0 < q)) := by
  constructor
  · intro h
    unfold validatePositionData at h
    cases hx : checkPosField pd "x" with
    | error e => rw [hx] at h; cases h
    | ok u =>
      rw [hx] at h
      cases hy : checkPosField pd "y" with
      | error e => rw [hy] at h; cases h
      | ok u2 =>
        rw [hy] at h
        cases hw : checkPosField pd "width" with
        | error e => rw [hw] at h; cases h
        | ok u3 =>
          rw [hw] at h
          cases u
          cases u2
          cases u3
          exact ⟨(checkPosField_ok_iff_nonneg pd "x" (by decide)).mp hx,
            (checkPosField_ok_iff_nonneg pd "y" (by decide)).mp hy,
            (checkPosField_ok_iff_pos pd "width" (by decide)).mp hw,
            (checkPosField_ok_iff_pos pd "height" (by decide)).mp h⟩
  · rintro ⟨hx, hy, hw, hh⟩
    unfold validatePositionData
    rw [(checkPosField_ok_iff_nonneg pd "x" (by decide)).mpr hx,
      (checkPosField_ok_iff_nonneg pd "y" (by decide)).mpr hy,
      (checkPosField_ok_iff_pos pd "width" (by decide)).mpr hw]
    exact (checkPosField_ok_iff_pos pd "height" (by decide)).mpr hh

/-- The per-signer validation of `convertAndValidateSigners`, declaratively. -/
def signerReqOk (s : SignerRequest) : Prop :=
  0 < s.id ∧ String.mk (trimChars s.name.toList) ≠ "" ∧ s.name.utf8ByteSize ≤ 255 ∧
  isValidHexColor s.color = true

theorem convertSignersLoop_ok_iff (l : List SignerRequest) :
    ∀ acc used, (∃ out, convertSignersLoop acc used l = .ok out) ↔
      ((∀ s ∈ l, signerReqOk s) ∧ (∀ s ∈ l, s.id ∉ used) ∧
        (l.map (fun s => s.id)).Nodup) := by
  induction l with
  | nil =>
    intro acc used
    simp [convertSignersLoop]
  | cons s rest ih =>
    intro acc used
    unfold convertSignersLoop
    by_cases c1 : s.id ≤ 0
    · rw [if_pos c1]
      constructor
      · rintro ⟨out, h⟩; cases h
      · rintro ⟨hall, -, -⟩
        exact absurd (hall s (List.mem_cons_self s rest)).1 (not_lt.mpr c1)
    · rw [if_neg c1]
      by_cases c2 : s.id ∈ used
      · rw [if_pos c2]
        constructor
        · rintro ⟨out, h⟩; cases h
        · rintro ⟨-, hused, -⟩
          exact absurd c2 (hused s (List.mem_cons_self s rest))
      · rw [if_neg c2]
        by_cases c3 : String.mk (trimChars s.name.toList) = ""
        · rw [if_pos c3]
          constructor
          · rintro ⟨out, h⟩; cases h
          · rintro ⟨hall, -, -⟩
            exact absurd c3 (hall s (List.mem_cons_self s rest)).2.1
        · rw [if_neg c3]
          by_cases c4 : 255 < s.name.utf8ByteSize
          · rw [if_pos c4]
            constructor
            · rintro ⟨out, h⟩; cases h
            · rintro ⟨hall, -, -⟩
              exact absurd c4 (not_lt.mpr (hall s (List.mem_cons_self s rest)).2.2.1)
          · rw [if_neg c4]
            by_cases c5 : isValidHexColor s.color = false
            · rw [if_pos c5]
              constructor
              · rintro ⟨out, h⟩; cases h
              · rintro ⟨hall, -, -⟩
                rw [(hall s (List.mem_cons_self s rest)).2.2.2] at c5
                cases c5
            · rw [if_neg c5]
              refine Iff.trans (ih _ _) ?_
              constructor
              · rintro ⟨hall, hused, hnodup⟩
                refine ⟨?_, ?_, ?_⟩
                · intro x hx
                  rcases List.mem_cons.mp hx with rfl | hx
                  · exact ⟨not_le.mp c1, c3, not_lt.mp c4,
                      by simpa using c5⟩
                  · exact hall x hx
                · intro x hx
                  rcases List.mem_cons.mp hx with rfl | hx
                  · exact c2
                  · exact fun hmem => (hused x hx) (List.mem_append.mpr (Or.inl hmem))
                · rw [List.map_cons, List.nodup_cons]
                  refine ⟨?_, hnodup⟩
                  intro hmem
                  rcases List.mem_map.mp hmem with ⟨x, hx, hxid⟩
                  exact (hused x hx) (List.mem_append.mpr (Or.inr (by simp [hxid])))
              · rintro ⟨hall, hnot, hnodup⟩
                rw [List.map_cons, List.nodup_cons] at hnodup
                refine ⟨fun x hx => hall x (List.mem_cons_of_mem s hx), fun x hx hmem => ?_,
                  hnodup.2⟩
                rcases List.mem_append.mp hmem with hmem | hmem
                · exact (hnot x (List.mem_cons_of_mem s hx)) hmem
                · have heq := List.mem_singleton.mp hmem
                  exact hnodup.1 (List.mem_map.mpr ⟨x, hx, heq⟩)

theorem convertSignersLoop_orders (l : List SignerRequest) :
    ∀ acc used out, convertSignersLoop acc used l = .ok out →
      out.2 = used ++ l.map (fun s => s.id) := by
  induction l with
  | nil =>
    intro acc used out h
    simp only [convertSignersLoop] at h
    cases h
    simp
  | cons s rest ih =>
    intro acc used out h
    unfold convertSignersLoop at h
    split at h
    · cases h
    · split at h
      · cases h
      · split at h
        · cases h
        · split at h
          · cases h
          · split at h
            · cases h
            · rw [ih _ _ _ h]
              simp

/-- The per-field validation of `convertAndValidateFields`, declaratively. -/
def fieldReqOk (signerOrders : List Int) (f : FieldRequest) : Prop :=
  validFieldTypes.contains f.type = true ∧ String.mk (trimChars f.id.toList) ≠ "" ∧
  f.signer ∈ signerOrders ∧ validatePositionData f.position = .ok ()

theorem convertFieldsLoop_ok_iff (orders : List Int) (l : List FieldRequest) :
    ∀ acc seen, (∃ out, convertFieldsLoop orders acc seen l = .ok out) ↔
      ((∀ f ∈ l, fieldReqOk orders f) ∧ (∀ f ∈ l, f.id ∉ seen) ∧
        (l.map (fun f => f.id)).Nodup) := by
  induction l with
  | nil =>
    intro acc seen
    simp [convertFieldsLoop]
  | cons f rest ih =>
    intro acc seen
    unfold convertFieldsLoop
    by_cases c1 : validFieldTypes.contains f.type = false
    · rw [if_pos c1]
      constructor
      · rintro ⟨out, h⟩; cases h
      · rintro ⟨hall, -, -⟩
        rw [(hall f (List.mem_cons_self f rest)).1] at c1
        cases c1
    · rw [if_neg c1]
      by_cases c2 : String.mk (trimChars f.id.toList) = ""
      · rw [if_pos c2]
        constructor
        · rintro ⟨out, h⟩; cases h
        · rintro ⟨hall, -, -⟩
          exact absurd c2 (hall f (List.mem_cons_self f rest)).2.1
      · rw [if_neg c2]
        by_cases c3 : f.id ∈ seen
        · rw [if_pos c3]
          constructor
          · rintro ⟨out, h⟩; cases h
          · rintro ⟨-, hseen, -⟩
            exact absurd c3 (hseen f (List.mem_cons_self f rest))
        · rw [if_neg c3]
          by_cases c4 : f.signer ∉ orders
          · rw [if_pos c4]
            constructor
            · rintro ⟨out, h⟩; cases h
            · rintro ⟨hall, -, -⟩
              exact absurd (hall f (List.mem_cons_self f rest)).2.2.1 c4
          · rw [if_neg c4]
            cases hv : validatePositionData f.position with
            | error e =>
              constructor
              · rintro ⟨out, h⟩; cases h
              · rintro ⟨hall, -, -⟩
                rw [(hall f (List.mem_cons_self f rest)).2.2.2] at hv
                cases hv
            | ok u =>
              cases u
              refine Iff.trans (ih _ _) ?_
              constructor
              · rintro ⟨hall, hseen, hnodup⟩
                refine ⟨?_, ?_, ?_⟩
                · intro x hx
                  rcases List.mem_cons.mp hx with rfl | hx
                  · exact ⟨by simpa using c1, c2, not_not.mp c4, hv⟩
                  · exact hall x hx
                · intro x hx
                  rcases List.mem_cons.mp hx with rfl | hx
                  · exact c3
                  · exact fun hmem => (hseen x hx) (List.mem_append.mpr (Or.inl hmem))
                · rw [List.map_cons, List.nodup_cons]
                  refine ⟨?_, hnodup⟩
                  intro hmem
                  rcases List.mem_map.mp hmem with ⟨x, hx, hxid⟩
                  exact (hseen x hx) (List.mem_append.mpr (Or.inr (by simp [hxid])))
              · rintro ⟨hall, hnot, hnodup⟩
                rw [List.map_cons, List.nodup_cons] at hnodup
                refine ⟨fun x hx => hall x (List.mem_cons_of_mem f hx), fun x hx hmem => ?_,
                  hnodup.2⟩
                rcases List.mem_append.mp hmem with hmem | hmem
                · exact (hnot x (List.mem_cons_of_mem f hx)) hmem
                · have heq := List.mem_singleton.mp hmem
                  exact hnodup.1 (List.mem_map.mpr ⟨x, hx, heq⟩)

theorem convertAndValidateSigners_ok_iff (sigs : List SignerRequest) :
    (∃ out, convertAndValidateSigners sigs = .ok out) ↔
      (sigs ≠ [] ∧ (∀ s ∈ sigs, signerReqOk s) ∧ (sigs.map (fun s => s.id)).Nodup) := by
  unfold convertAndValidateSigners
  by_cases he : sigs.isEmpty
  · rw [if_pos he]
    constructor
    · rintro ⟨out, h⟩; cases h
    · rintro ⟨hne, -, -⟩
      exact absurd (List.isEmpty_iff.mp he) hne
  · rw [if_neg he]
    refine Iff.trans (convertSignersLoop_ok_iff sigs [] []) ?_
    constructor
    · rintro ⟨hall, -, hnodup⟩
      exact ⟨fun hnil => he (by simp [hnil]), hall, hnodup⟩
    · rintro ⟨-, hall, hnodup⟩
      exact ⟨hall, fun s _ => List.not_mem_nil s.id, hnodup⟩

theorem convertAndValidateSigners_orders (sigs : List SignerRequest)
    (out : List TemplateSignerInput × List Int)
    (h : convertAndValidateSigners sigs = .ok out) : out.2 = sigs.map (fun s => s.id) := by
  unfold convertAndValidateSigners at h
  split at h
  · cases h
  · simpa using convertSignersLoop_orders sigs [] [] out h

theorem convertAndValidateFields_ok_iff (fr : List FieldRequest) (orders : List Int) :
    (∃ out, convertAndValidateFields fr orders = .ok out) ↔
      ((∀ f ∈ fr, fieldReqOk orders f) ∧ (fr.map (fun f => f.id)).Nodup) := by
  unfold convertAndValidateFields
  refine Iff.trans (convertFieldsLoop_ok_iff orders fr [] []) ?_
  constructor
  · rintro ⟨hall, -, hnodup⟩
    exact ⟨hall, hnodup⟩
  · rintro ⟨hall, hnodup⟩
    exact ⟨hall, fun f _ => List.not_mem_nil f.id, hnodup⟩

/-- The per-field conditions of claim C5, with the position requirements
spelled out. -/
def fieldReqOkSpec (signers : List SignerRequest) (f : FieldRequest) : Prop :=
  validFieldTypes.contains f.type = true ∧ String.mk (trimChars f.id.toList) ≠ "" ∧
  f.signer ∈ signers.map (fun s => s.id) ∧
  (∃ q, lookupPos f.position "x" = some (.num q) ∧ 0 ≤ q) ∧
  (∃ q, lookupPos f.position "y" = some (.num q) ∧ 0 ≤ q) ∧
  (∃ q, lookupPos f.position "width" = some (.num q) ∧ 0 < q) ∧
  (∃ q, lookupPos f.position "height" = some (.num q) ∧ 0 < q)

theorem fieldReqOkSpec_iff (signers : List SignerRequest) (f : FieldRequest) :
    fieldReqOkSpec signers f ↔ fieldReqOk (signers.map (fun s => s.id)) f := by
  unfold fieldReqOkSpec fieldReqOk
  rw [validatePositionData_ok_iff]

/-- The acceptance conditions of C5 exactly as the claim states them — note
they say nothing about the caller's role, the filename suffix, the
template-data JSON, the signer count, signer name length, or signer color. -/
def claimAcceptsCreate (req : HandlerRequest) : Prop :=
  req.name ≠ "" ∧ req.name.utf8ByteSize ≤ 255 ∧ req.description.utf8ByteSize ≤ 500 ∧
  (match req.pdf with
   | some pf => pf.2 ≠ []
   | none => False) ∧
  (∀ s ∈ (effectiveTemplateData req).signers, 0 < s.id ∧ s.name ≠ "") ∧
  ((effectiveTemplateData req).signers.map (fun s => s.id)).Nodup ∧
  (∀ f ∈ (effectiveTemplateData req).fields, f.id ≠ "" ∧
    fieldReqOkSpec (effectiveTemplateData req).signers f) ∧
  ((effectiveTemplateData req).fields.map (fun f => f.id)).Nodup

/-- C5 as stated is false: this request satisfies every condition the claim
lists (the signer and field conditions vacuously, since the absent
template data leaves both lists empty), yet the handler rejects it — the
code additionally requires at least one signer. -/
theorem c5_counterexample :
    claimAcceptsCreate ⟨"member", "a", "", some ("doc.pdf", [1]), none⟩ ∧
    (createTemplateHandler ⟨"member", "a", "", some ("doc.pdf", [1]), none⟩ "k1" true).status
      ≠ 201 := by
  constructor
  · exact ⟨by decide, by decide, by decide, by decide,
      fun s hs => absurd hs (List.not_mem_nil s),
      List.nodup_nil,
      fun f hf => absurd hf (List.not_mem_nil f),
      List.nodup_nil⟩
  · decide

/-- The conditions under which the handler actually accepts. -/
def handlerAcceptsSpec (req : HandlerRequest) : Prop :=
  req.role ≠ "viewer" ∧ req.name ≠ "" ∧ req.name.utf8ByteSize ≤ 255 ∧
  req.description.utf8ByteSize ≤ 500 ∧
  (match req.pdf with
   | some pf => hasSuffixPdf pf.1 = true ∧ pf.2 ≠ []
   | none => False) ∧
  req.templateData ≠ some none ∧
  (effectiveTemplateData req).signers ≠ [] ∧
  (∀ s ∈ (effectiveTemplateData req).signers, signerReqOk s) ∧
  ((effectiveTemplateData req).signers.map (fun s => s.id)).Nodup ∧
  (∀ f ∈ (effectiveTemplateData req).fields,
    fieldReqOkSpec (effectiveTemplateData req).signers f) ∧
  ((effectiveTemplateData req).fields.map (fun f => f.id)).Nodup

/-- C5 (amended): assuming the database accepts the insert, the handler
responds 201 exactly when the claim's conditions hold together with the
conditions the code additionally enforces — non-viewer role, a `.pdf`
filename, parseable template data, at least one signer, trimmed signer
names of at most 255 bytes, and a 7-character hex signer color; and a
request failing validation never reaches the database. -/
theorem c5_create_template_validation (req : HandlerRequest) (key : String) :
    ((createTemplateHandler req key true).status = 201 ↔ handlerAcceptsSpec req) ∧
    (¬handlerAcceptsSpec req →
      ∀ b, S3Event.dbCreate b ∉ (createTemplateHandler req key true).events) := by
  have hmain : (createTemplateHandler req key true).status = 201 ↔ handlerAcceptsSpec req := by
    unfold createTemplateHandler handlerAcceptsSpec
    by_cases h1 : (req.role == "viewer") = true
    · rw [if_pos h1]
      constructor
      · intro h
        exact absurd h (by decide : (403 : Nat) ≠ 201)
      · rintro ⟨hrole, -⟩
        exact absurd (by simpa using h1) hrole
    · rw [if_neg h1]
      by_cases h2 : req.name = ""
      · rw [if_pos h2]
        constructor
        · intro h
          exact absurd h (by decide : (400 : Nat) ≠ 201)
        · rintro ⟨-, hname, -⟩
          exact absurd h2 hname
      · rw [if_neg h2]
        by_cases h3 : 255 < req.name.utf8ByteSize
        · rw [if_pos h3]
          constructor
          · intro h
            exact absurd h (by decide : (400 : Nat) ≠ 201)
          · rintro ⟨-, -, hlen, -⟩
            exact absurd h3 (not_lt.mpr hlen)
        · rw [if_neg h3]
          by_cases h4 : 500 < req.description.utf8ByteSize
          · rw [if_pos h4]
            constructor
            · intro h
              exact absurd h (by decide : (400 : Nat) ≠ 201)
            · rintro ⟨-, -, -, hdesc, -⟩
              exact absurd h4 (not_lt.mpr hdesc)
          · rw [if_neg h4]
            cases hpdf : req.pdf with
            | none =>
              constructor
              · intro h
                exact absurd h (by decide : (400 : Nat) ≠ 201)
              · rintro ⟨-, -, -, -, hfile, -⟩
                cases hfile
            | some pf =>
              obtain ⟨filename, fileBytes⟩ := pf
              simp only []
              by_cases h5 : hasSuffixPdf filename = false
              · rw [if_pos h5]
                constructor
                · intro h
                  exact absurd h (by decide : (400 : Nat) ≠ 201)
                · rintro ⟨-, -, -, -, ⟨hsuf, -⟩, -⟩
                  rw [hsuf] at h5
                  cases h5
              · rw [if_neg h5]
                by_cases h6 : fileBytes.isEmpty = true
                · rw [if_pos h6]
                  constructor
                  · intro h
                    exact absurd h (by decide : (400 : Nat) ≠ 201)
                  · rintro ⟨-, -, -, -, ⟨-, hnenil⟩, -⟩
                    exact absurd (List.isEmpty_iff.mp h6) hnenil
                · rw [if_neg h6]
                  by_cases h7 : req.templateData = some none
                  · rw [if_pos h7]
                    constructor
                    · intro h
                      exact absurd h (by decide : (400 : Nat) ≠ 201)
                    · rintro ⟨-, -, -, -, -, htd, -⟩
                      exact absurd h7 htd
                  · rw [if_neg h7]
                    cases hs : convertAndValidateSigners (effectiveTemplateData req).signers with
                    | error e =>
                      constructor
                      · intro h
                        exact absurd h (by decide : (400 : Nat) ≠ 201)
                      · rintro ⟨-, -, -, -, -, -, hne, halls, hnodups, -⟩
                        rcases (convertAndValidateSigners_ok_iff _).mpr
                          ⟨hne, halls, hnodups⟩ with ⟨out, hout⟩
                        rw [hout] at hs
                        cases hs
                    | ok sres =>
                      obtain ⟨souts, sorders⟩ := sres
                      simp only []
                      have horders := convertAndValidateSigners_orders _ _ hs
                      simp only [] at horders
                      cases hf : convertAndValidateFields
                          (effectiveTemplateData req).fields sorders with
                      | error e =>
                        constructor
                        · intro h
                          exact absurd h (by decide : (400 : Nat) ≠ 201)
                        · rintro ⟨-, -, -, -, -, -, -, -, -, hallf, hnodupf⟩
                          have hallf2 : ∀ f ∈ (effectiveTemplateData req).fields,
                              fieldReqOk sorders f := by
                            intro f hfm
                            rw [horders]
                            exact (fieldReqOkSpec_iff _ f).mp (hallf f hfm)
                          rcases (convertAndValidateFields_ok_iff _ _).mpr
                            ⟨hallf2, hnodupf⟩ with ⟨out, hout⟩
                          rw [hout] at hf
                          cases hf
                      | ok fres =>
                        have hsig := (convertAndValidateSigners_ok_iff _).mp ⟨_, hs⟩
                        have hfld := (convertAndValidateFields_ok_iff _ _).mp ⟨_, hf⟩
                        constructor
                        · intro _
                          refine ⟨fun hr => h1 (by simp [hr]), h2, not_lt.mp h3, not_lt.mp h4,
                            ⟨by simpa using h5, fun hnil => h6 (by simp [hnil])⟩, h7,
                            hsig.1, hsig.2.1, hsig.2.2, ?_, hfld.2⟩
                          intro f hfm
                          refine (fieldReqOkSpec_iff _ f).mpr ?_
                          rw [← horders]
                          exact hfld.1 f hfm
                        · intro hspec
                          rfl
  refine ⟨hmain, fun hrej b => ?_⟩
  rcases createTemplateHandler_cases req key with h | h | h | ⟨h, -⟩
  · rw [h true]
    simp
  · rw [h true]
    simp
  · rw [h true]
    simp
  · rw [h] at hmain
    exact absurd (hmain.mp rfl) hrej

/-- Witness for the amended C5: a fully valid request is accepted, via the
right-to-left direction of the characterization. -/
theorem c5_create_template_validation_witness :
    (createTemplateHandler
      ⟨"member", "T", "", some ("doc.pdf", [1]),
        some (some ⟨1,
          [⟨"f1", "text", 1,
            [("x", .num 0), ("y", .num 0), ("width", .num 1), ("height", .num 1)],
            "L", true, 1⟩],
          [⟨1, "Buyer", "#3B82F6"⟩]⟩)⟩ "k1" true).status = 201 :=
  (c5_create_template_validation _ "k1").1.mpr
    ⟨by decide, by decide, by decide, by decide, ⟨by decide, by decide⟩, by decide,
     by decide,
     fun s hs => by
       rcases List.mem_singleton.mp hs with rfl
       exact ⟨by decide, by decide, by decide, by decide⟩,
     by decide,
     fun f hf => by
       rcases List.mem_singleton.mp hf with rfl
       exact ⟨by decide, by decide, by decide,
         ⟨0, rfl, le_refl 0⟩, ⟨0, rfl, le_refl 0⟩,
         ⟨1, rfl, by norm_num⟩, ⟨1, rfl, by norm_num⟩⟩,
     by decide⟩

end FinalSign
